import Mathlib

/-!
Verification of the `rust_core` pre-trade risk gate
(`src/services/execution-engine/rust_core/src/lib.rs`).

The gate's two decision functions, `is_safe_entry` and `validate_order`,
operate on Rust `f64` values using only IEEE-754 comparisons (`<`, `>`,
`<=`) and one multiplication.  We embed `f64` shallowly as `F64`: NaN,
`+inf`, `-inf`, or a finite value carried by an exact rational.  This
captures the comparison semantics exactly (every comparison with a NaN
operand is `false`; the non-NaN values are totally ordered with
`-inf < finite < +inf`) and the special cases of IEEE multiplication
(NaN is absorbing; `0 * ±inf` is NaN; a nonzero finite times an infinity
is an infinity with the product sign).  Finite-times-finite is modelled
by the exact rational product: rounding and overflow of a finite product
change no claim settled here, because the invariant and guard 4 compare
the same product expression against the balance, and an overflowing
product (`±inf`) orders against a finite balance exactly as the huge
exact rational does, so every accept/reject outcome coincides.

`run_heavy_sim` accumulates `sin(sqrt(i))` in `f64`; the exact values of
the Rust `sqrt`/`sin` intrinsics are platform specific, so the embedding
is parameterised over the numeric carrier and its operations, and the
claims proved about it hold for every interpretation.
-/

/-- Shallow model of a Rust `f64` as used by the gate: NaN, positive
infinity, negative infinity, or a finite value (exact rational). -/
inductive F64 : Type
  | nan : F64
  | inf : F64
  | ninf : F64
  | fin (q : ℚ) : F64
  deriving DecidableEq, Repr

namespace F64

/-- IEEE-754 `<` : any comparison involving NaN is `false`; otherwise
`-inf < finite < +inf` and finite values compare as rationals. -/
def ltF64 : F64 → F64 → Bool
  | fin a, fin b => a < b
  | ninf, fin _ => true
  | ninf, inf => true
  | fin _, inf => true
  | _, _ => false

/-- IEEE-754 `>` : `a > b` holds exactly when `b < a` (both are `false`
when either operand is NaN). -/
def gtF64 (a b : F64) : Bool := ltF64 b a

/-- IEEE-754 `<=` : any comparison involving NaN is `false`; otherwise
the reflexive closure of the `<` order above. -/
def leF64 : F64 → F64 → Bool
  | fin a, fin b => a ≤ b
  | ninf, fin _ => true
  | ninf, inf => true
  | ninf, ninf => true
  | fin _, inf => true
  | inf, inf => true
  | _, _ => false

/-- IEEE-754 multiplication as the gate uses it: NaN is absorbing,
`0 * ±inf = NaN`, a nonzero finite times an infinity is an infinity
carrying the product sign, infinities multiply by the sign rule, and
finite values multiply exactly. -/
def mulF64 : F64 → F64 → F64
  | fin a, fin b => fin (a * b)
  | nan, _ => nan
  | _, nan => nan
  | inf, inf => inf
  | inf, ninf => ninf
  | ninf, inf => ninf
  | ninf, ninf => inf
  | inf, fin b => if b = 0 then nan else if 0 < b then inf else ninf
  | ninf, fin b => if b = 0 then nan else if 0 < b then ninf else inf
  | fin a, inf => if a = 0 then nan else if 0 < a then inf else ninf
  | fin a, ninf => if a = 0 then nan else if 0 < a then ninf else inf

/-- Whether a value is the NaN of the model. -/
def isNaN : F64 → Bool
  | nan => true
  | _ => false

/-- Whether a value is finite (neither NaN nor an infinity). -/
def isFinite : F64 → Bool
  | fin _ => true
  | _ => false

end F64

open F64

/-- Embedding of `is_safe_entry` (lib.rs lines 21-29).  The Rust source:
`if spread > max_spread { return false; }
 if volatility > max_volatility { return false; }
 true` — `current_price` is a parameter of the signature that the body
never reads. -/
def is_safe_entry (current_price spread volatility max_spread max_volatility : F64) : Bool :=
  if gtF64 spread max_spread then false
  else if gtF64 volatility max_volatility then false
  else true

/-- Embedding of `validate_order` (lib.rs lines 33-47).  The Rust source
returns at the first failing guard, with the exact reason strings kept
verbatim. -/
def validate_order (price amount min_amount max_amount balance : F64) : Bool × String :=
  if ltF64 amount min_amount then (false, "Amount below minimum limit")
  else if gtF64 amount max_amount then (false, "Amount exceeds maximum limit")
  else if leF64 price (fin 0) then (false, "Price must be positive")
  else if gtF64 (mulF64 amount price) balance then (false, "Insufficient balance")
  else (true, "Valid")

/-- The invariant §3 of the spec says the gate enforces, read with the
source's IEEE comparison semantics: `price > 0`,
`min_amount ≤ amount ≤ max_amount`, `amount * price ≤ balance`. -/
def gateInvariant (price amount min_amount max_amount balance : F64) : Bool :=
  gtF64 price (fin 0) && leF64 min_amount amount && leF64 amount max_amount
    && leF64 (mulF64 amount price) balance

/-- Nothing is `<` NaN. -/
theorem ltF64_nan_right (a : F64) : ltF64 a nan = false := by
  cases a <;> rfl

/-- NaN is `<` nothing. -/
theorem ltF64_nan_left (b : F64) : ltF64 nan b = false := rfl

/-- NaN is `>` nothing. -/
theorem gtF64_nan_left (b : F64) : gtF64 nan b = false := ltF64_nan_right b

/-- Nothing is `>` NaN. -/
theorem gtF64_nan_right (a : F64) : gtF64 a nan = false := rfl

/-- `<=` excludes the strict reverse comparison. -/
theorem le_imp_not_gt {a b : F64} (h : leF64 a b = true) : gtF64 a b = false := by
  cases a <;> cases b <;> simp_all [leF64, gtF64, ltF64, not_lt]

/-- A true `<` comparison has non-NaN operands. -/
theorem ltF64_true_not_nan {a b : F64} (h : ltF64 a b = true) :
    isNaN a = false ∧ isNaN b = false := by
  cases a <;> cases b <;> simp_all [ltF64, isNaN]

/-- Totality on non-NaN values: a failed `<` yields the reverse `<=`. -/
theorem leF64_of_not_ltF64 {a b : F64} (ha : isNaN a = false) (hb : isNaN b = false)
    (h : ltF64 a b = false) : leF64 b a = true := by
  cases a <;> cases b <;> simp_all [ltF64, leF64, isNaN, not_lt]

/-- Transitivity of `<` across `<=` on the model's order. -/
theorem ltF64_trans_leF64 {a b c : F64} (h₁ : ltF64 a b = true)
    (h₂ : leF64 b c = true) : ltF64 a c = true := by
  cases a <;> cases b <;> cases c <;> simp_all [ltF64, leF64]
  exact lt_of_lt_of_le h₁ h₂

/-- C6: the `current_price` parameter of `is_safe_entry` has no influence
on the result: two calls differing only in `current_price` return the
same boolean. -/
theorem is_safe_entry_ignores_current_price
    (cp₁ cp₂ spread volatility max_spread max_volatility : F64) :
    is_safe_entry cp₁ spread volatility max_spread max_volatility
      = is_safe_entry cp₂ spread volatility max_spread max_volatility := rfl

/-- C2: `is_safe_entry` returns `false` if `spread > max_spread`, else
`false` if `volatility > max_volatility`, else `true`; equality to a
limit is accepted: whenever `spread ≤ max_spread` and
`volatility ≤ max_volatility` it returns `true`. -/
theorem is_safe_entry_spec
    (cp spread volatility max_spread max_volatility : F64) :
    (gtF64 spread max_spread = true →
      is_safe_entry cp spread volatility max_spread max_volatility = false)
    ∧ (gtF64 spread max_spread = false → gtF64 volatility max_volatility = true →
      is_safe_entry cp spread volatility max_spread max_volatility = false)
    ∧ (leF64 spread max_spread = true → leF64 volatility max_volatility = true →
      is_safe_entry cp spread volatility max_spread max_volatility = true) :=
  ⟨fun h => by simp [is_safe_entry, h],
    fun h₁ h₂ => by simp [is_safe_entry, h₁, h₂],
    fun h₁ h₂ => by simp [is_safe_entry, le_imp_not_gt h₁, le_imp_not_gt h₂]⟩

/-- Witness for C2 at a boundary input: spread equal to its ceiling and
volatility equal to its ceiling are accepted. -/
theorem is_safe_entry_spec_witness :
    leF64 (fin 1) (fin 1) = true ∧ leF64 (fin 2) (fin 2) = true
      ∧ is_safe_entry (fin 50) (fin 1) (fin 2) (fin 1) (fin 2) = true :=
  ⟨by decide, by decide,
    (is_safe_entry_spec (fin 50) (fin 1) (fin 2) (fin 1) (fin 2)).2.2 (by decide) (by decide)⟩

/-- C5: a NaN spread or NaN volatility never triggers rejection in
`is_safe_entry`: both NaN is accepted; NaN spread with in-limit
volatility is accepted; NaN volatility with in-limit spread is
accepted. -/
theorem is_safe_entry_nan_safe (cp max_spread max_volatility : F64) :
    (is_safe_entry cp nan nan max_spread max_volatility = true)
    ∧ (∀ volatility, leF64 volatility max_volatility = true →
        is_safe_entry cp nan volatility max_spread max_volatility = true)
    ∧ (∀ spread, leF64 spread max_spread = true →
        is_safe_entry cp spread nan max_spread max_volatility = true) :=
  ⟨by simp [is_safe_entry, gtF64_nan_left],
    fun v hv => by simp [is_safe_entry, gtF64_nan_left, le_imp_not_gt hv],
    fun s hs => by simp [is_safe_entry, le_imp_not_gt hs, gtF64_nan_left]⟩

/-- Witness for C5: NaN spread together with an in-limit volatility is
accepted, and so is the fully NaN pair. -/
theorem is_safe_entry_nan_safe_witness :
    is_safe_entry (fin 10) nan nan (fin 1) (fin 2) = true
      ∧ (leF64 (fin 1) (fin 2) = true
        ∧ is_safe_entry (fin 10) nan (fin 1) (fin 1) (fin 2) = true) :=
  ⟨(is_safe_entry_nan_safe (fin 10) (fin 1) (fin 2)).1,
    by decide, (is_safe_entry_nan_safe (fin 10) (fin 1) (fin 2)).2.1 (fin 1) (by decide)⟩

/-- C1: `validate_order` evaluates its four guards sequentially and the
first failing guard determines the result, with the reason strings
verbatim; when no guard fails it returns `(true, "Valid")`. -/
theorem validate_order_first_failing_rule
    (price amount min_amount max_amount balance : F64) :
    (ltF64 amount min_amount = true →
      validate_order price amount min_amount max_amount balance
        = (false, "Amount below minimum limit"))
    ∧ (ltF64 amount min_amount = false → gtF64 amount max_amount = true →
      validate_order price amount min_amount max_amount balance
        = (false, "Amount exceeds maximum limit"))
    ∧ (ltF64 amount min_amount = false → gtF64 amount max_amount = false →
      leF64 price (fin 0) = true →
      validate_order price amount min_amount max_amount balance
        = (false, "Price must be positive"))
    ∧ (ltF64 amount min_amount = false → gtF64 amount max_amount = false →
      leF64 price (fin 0) = false → gtF64 (mulF64 amount price) balance = true →
      validate_order price amount min_amount max_amount balance
        = (false, "Insufficient balance"))
    ∧ (ltF64 amount min_amount = false → gtF64 amount max_amount = false →
      leF64 price (fin 0) = false → gtF64 (mulF64 amount price) balance = false →
      validate_order price amount min_amount max_amount balance
        = (true, "Valid")) := by
  refine ⟨fun h₁ => ?_, fun h₁ h₂ => ?_, fun h₁ h₂ h₃ => ?_,
    fun h₁ h₂ h₃ h₄ => ?_, fun h₁ h₂ h₃ h₄ => ?_⟩ <;>
    simp [validate_order, h₁]
  all_goals simp [h₂]
  all_goals simp [h₃]
  all_goals simp [h₄]

/-- Witness for C1, the spec's worked example: an order of amount 10 at
price 100 against a balance of 500 is rejected for insufficient balance,
since 100 × 10 = 1000 > 500. -/
theorem validate_order_first_failing_rule_witness :
    validate_order (fin 100) (fin 10) (fin 1) (fin 10) (fin 500)
      = (false, "Insufficient balance") :=
  (validate_order_first_failing_rule (fin 100) (fin 10) (fin 1) (fin 10) (fin 500)).2.2.2.1
    (by decide) (by decide) (by decide) (by norm_num [gtF64, ltF64, mulF64])

/-- C3: `validate_order` treats its boundaries inclusively except the
price rule: `amount = min_amount` never yields the rule-1 reason,
`amount = max_amount` never yields the rule-2 reason, a zero price
triggers rule 3 once rules 1 and 2 pass, an order whose notional exactly
equals the balance never yields the rule-4 reason, and in particular
`validate_order(100, 10, 1, 10, 1000)` returns `(true, "Valid")`. -/
theorem validate_order_boundaries :
    (∀ price (q : ℚ) max_amount balance,
      (validate_order price (fin q) (fin q) max_amount balance).2
        ≠ "Amount below minimum limit")
    ∧ (∀ price (q : ℚ) min_amount balance,
      (validate_order price (fin q) min_amount (fin q) balance).2
        ≠ "Amount exceeds maximum limit")
    ∧ (∀ amount min_amount max_amount balance,
      ltF64 amount min_amount = false → gtF64 amount max_amount = false →
      validate_order (fin 0) amount min_amount max_amount balance
        = (false, "Price must be positive"))
    ∧ (∀ (p a : ℚ) min_amount max_amount,
      (validate_order (fin p) (fin a) min_amount max_amount (fin (a * p))).2
        ≠ "Insufficient balance")
    ∧ validate_order (fin 100) (fin 10) (fin 1) (fin 10) (fin 1000)
        = (true, "Valid") := by
  refine ⟨fun price q mx bal => ?_, fun price q mn bal => ?_,
    fun amount mn mx bal h₁ h₂ => ?_, fun p a mn mx => ?_, ?_⟩
  · have h : ltF64 (fin q) (fin q) = false := by simp [ltF64]
    simp only [validate_order, h, Bool.false_eq_true, if_false]
    split
    · simp
    · split
      · simp
      · split <;> simp
  · simp only [validate_order]
    split
    · simp
    · have h : gtF64 (fin q) (fin q) = false := by simp [gtF64, ltF64]
      simp only [h, Bool.false_eq_true, if_false]
      split
      · simp
      · split <;> simp
  · have h₃ : leF64 (fin 0) (fin 0) = true := by decide
    simp [validate_order, h₁, h₂, h₃]
  · simp only [validate_order]
    split
    · simp
    · split
      · simp
      · split
        · simp
        · have h : gtF64 (mulF64 (fin a) (fin p)) (fin (a * p)) = false := by
            simp [mulF64, gtF64, ltF64]
          simp [h]
  · norm_num [validate_order, ltF64, gtF64, leF64, mulF64]

/-- Witness for C3: the rule-3 conjunct applied at the spec's boundary
shape, a zero price with an in-bounds amount. -/
theorem validate_order_boundaries_witness :
    ltF64 (fin 5) (fin 1) = false ∧ gtF64 (fin 5) (fin 10) = false
      ∧ validate_order (fin 0) (fin 5) (fin 1) (fin 10) (fin 1000)
          = (false, "Price must be positive") :=
  ⟨by decide, by decide,
    validate_order_boundaries.2.2.1 (fin 5) (fin 1) (fin 10) (fin 1000)
      (by decide) (by decide)⟩

/-- C8: the boolean and the reason string of `validate_order` are
consistent: the first component is `true` exactly when the reason is
`"Valid"`, and the reason is always one of the five fixed strings. -/
theorem validate_order_reason_consistent
    (price amount min_amount max_amount balance : F64) :
    (((validate_order price amount min_amount max_amount balance).1 = true)
      ↔ (validate_order price amount min_amount max_amount balance).2 = "Valid")
    ∧ ((validate_order price amount min_amount max_amount balance).2 = "Valid"
      ∨ (validate_order price amount min_amount max_amount balance).2
          = "Amount below minimum limit"
      ∨ (validate_order price amount min_amount max_amount balance).2
          = "Amount exceeds maximum limit"
      ∨ (validate_order price amount min_amount max_amount balance).2
          = "Price must be positive"
      ∨ (validate_order price amount min_amount max_amount balance).2
          = "Insufficient balance") := by
  simp only [validate_order]
  split
  · simp
  · split
    · simp
    · split
      · simp
      · split <;> simp

/-- C9: contradictory bounds reject every non-NaN amount: when
`min_amount > max_amount` holds as an IEEE comparison, `validate_order`
returns `false` for every non-NaN amount. -/
theorem validate_order_contradictory_bounds
    (price amount min_amount max_amount balance : F64)
    (hbounds : gtF64 min_amount max_amount = true)
    (hnan : isNaN amount = false) :
    (validate_order price amount min_amount max_amount balance).1 = false := by
  have hbounds' : ltF64 max_amount min_amount = true := hbounds
  by_cases h₁ : ltF64 amount min_amount = true
  · simp [validate_order, h₁]
  · have h₁f : ltF64 amount min_amount = false := by simpa using h₁
    have hmn : isNaN min_amount = false := (ltF64_true_not_nan hbounds').2
    have hle : leF64 min_amount amount = true := leF64_of_not_ltF64 hnan hmn h₁f
    have h₂ : gtF64 amount max_amount = true := ltF64_trans_leF64 hbounds' hle
    simp [validate_order, h₁f, h₂]

/-- Witness for C9: bounds `min = 2 > 1 = max` reject the in-between
finite amount `3/2` (which would pass neither rule 1 nor rule 2 against
either bound alone being sane). -/
theorem validate_order_contradictory_bounds_witness :
    gtF64 (fin 2) (fin 1) = true ∧ isNaN (fin (3/2)) = false
      ∧ (validate_order (fin 7) (fin (3/2)) (fin 2) (fin 1) (fin 100)).1 = false :=
  ⟨by decide, by decide,
    validate_order_contradictory_bounds (fin 7) (fin (3/2)) (fin 2) (fin 1) (fin 100)
      (by decide) (by decide)⟩

/-- C10: a NaN amount passes every rule of `validate_order`: for every
price that is strictly positive as an IEEE comparison and arbitrary
bounds and balance, the order is accepted as `(true, "Valid")`. -/
theorem validate_order_nan_amount_accepted
    (price min_amount max_amount balance : F64)
    (hp : gtF64 price (fin 0) = true) :
    validate_order price nan min_amount max_amount balance = (true, "Valid") := by
  cases price with
  | nan => cases hp
  | ninf => cases hp
  | inf => simp [validate_order, ltF64_nan_left, gtF64_nan_left, leF64, mulF64]
  | fin p =>
    have hp' : (0 : ℚ) < p := by simpa [gtF64, ltF64] using hp
    simp [validate_order, ltF64_nan_left, gtF64_nan_left, leF64, mulF64, not_le.mpr hp']

/-- Witness for C10: with price 1 and ordinary bounds, a NaN amount is
accepted. -/
theorem validate_order_nan_amount_accepted_witness :
    gtF64 (fin 1) (fin 0) = true
      ∧ validate_order (fin 1) nan (fin 1) (fin 10) (fin 100) = (true, "Valid") :=
  ⟨by decide,
    validate_order_nan_amount_accepted (fin 1) (fin 1) (fin 10) (fin 100) (by decide)⟩

/-- On all-finite inputs, `validate_order` accepts exactly when the four
classical bound conditions hold. -/
theorem validate_order_fst_true_iff (p a mn mx b : ℚ) :
    (validate_order (fin p) (fin a) (fin mn) (fin mx) (fin b)).1 = true
      ↔ (mn ≤ a ∧ a ≤ mx ∧ 0 < p ∧ a * p ≤ b) := by
  simp only [validate_order, gtF64, ltF64, leF64, mulF64]
  split_ifs with h₁ h₂ h₃ h₄ <;>
    simp_all [not_lt, not_le, decide_eq_true_eq]

/-- C4 counterexample: the claim fails as stated, even for non-NaN
arguments.  With a NaN amount the gate-enforced invariant is violated
(NaN fails every comparison), yet `validate_order` accepts.  And with a
`+inf` price and a zero amount — every argument non-NaN — the notional
`0 * inf` is NaN, the invariant `amount * price ≤ balance` is violated,
yet `validate_order` again accepts. -/
theorem validate_order_invariant_counterexample :
    (gateInvariant (fin 1) nan (fin 0) (fin 10) (fin 100) = false
      ∧ (validate_order (fin 1) nan (fin 0) (fin 10) (fin 100)).1 = true)
    ∧ (isNaN F64.inf = false
      ∧ gateInvariant F64.inf (fin 0) (fin 0) (fin 10) (fin 100) = false
      ∧ (validate_order F64.inf (fin 0) (fin 0) (fin 10) (fin 100)).1 = true) := by
  decide

/-- C4 amended: `validate_order` is a total function (it is defined for
every input and never crashes), and on every input whose five arguments
are all finite (neither NaN nor an infinity), a violation of the
gate-enforced invariant (`price > 0`,
`min_amount ≤ amount ≤ max_amount`, `amount * price ≤ balance`)
produces a rejection, never an acceptance. -/
theorem validate_order_rejects_invariant_violations
    (price amount min_amount max_amount balance : F64)
    (hp : isFinite price = true) (ha : isFinite amount = true)
    (hmn : isFinite min_amount = true) (hmx : isFinite max_amount = true)
    (hb : isFinite balance = true)
    (hviol : gateInvariant price amount min_amount max_amount balance = false) :
    (validate_order price amount min_amount max_amount balance).1 = false := by
  cases price with
  | nan => cases hp
  | inf => cases hp
  | ninf => cases hp
  | fin p =>
    cases amount with
    | nan => cases ha
    | inf => cases ha
    | ninf => cases ha
    | fin a =>
      cases min_amount with
      | nan => cases hmn
      | inf => cases hmn
      | ninf => cases hmn
      | fin mn =>
        cases max_amount with
        | nan => cases hmx
        | inf => cases hmx
        | ninf => cases hmx
        | fin mx =>
          cases balance with
          | nan => cases hb
          | inf => cases hb
          | ninf => cases hb
          | fin b =>
            rw [← Bool.not_eq_true, validate_order_fst_true_iff]
            rintro ⟨h₁, h₂, h₃, h₄⟩
            have hinv : gateInvariant (fin p) (fin a) (fin mn) (fin mx) (fin b)
                = true := by
              simp [gateInvariant, gtF64, ltF64, leF64, mulF64, h₁, h₂, h₃, h₄]
            simp [hviol] at hinv

/-- Witness for C4 (amended) at the spec's own test input: a finite
negative price violates the invariant and the order is rejected. -/
theorem validate_order_rejects_invariant_violations_witness :
    isFinite (fin (-5)) = true
      ∧ gateInvariant (fin (-5)) (fin 5) (fin 1) (fin 10) (fin 1000) = false
      ∧ (validate_order (fin (-5)) (fin 5) (fin 1) (fin 10) (fin 1000)).1 = false :=
  ⟨by decide, by decide,
    validate_order_rejects_invariant_violations
      (fin (-5)) (fin 5) (fin 1) (fin 10) (fin 1000)
      (by decide) (by decide) (by decide) (by decide) (by decide) (by decide)⟩

/-- Embedding of `run_heavy_sim` (lib.rs lines 61-72).  The Rust body
fixes `iterations = 1_000_000`, runs `for i in 0..iterations` adding
`(i as f64).sqrt().sin()` to a score that starts at `0.0`, and formats
the report string.  The `f64` carrier and its operations (`0.0`,
addition, the `i as f64` cast, `sin`, `sqrt`, and the `{:.4}` rendering)
are abstract parameters: the platform libm fixes them, and every claim
proved here holds for each choice. -/
def run_heavy_sim {F : Type} (zero : F) (add : F → F → F) (ofNat : Nat → F)
    (sinF sqrtF : F → F) (fmt4 : F → String) (data : String) : String :=
  let iterations : Nat := 1000000
  let score := (List.range iterations).foldl (fun s i => add s (sinF (sqrtF (ofNat i)))) zero
  "Simulation Complete. Processed " ++ toString iterations ++ " iterations. Score: "
    ++ fmt4 score ++ ". Data received: " ++ data

/-- The score as the claim words it: the sequential accumulation of
`sin(sqrt(i))` for `i` from `0` to `n - 1`, starting from zero. -/
def heavySimSpecScore {F : Type} (zero : F) (add : F → F → F) (ofNat : Nat → F)
    (sinF sqrtF : F → F) : Nat → F
  | 0 => zero
  | n + 1 => add (heavySimSpecScore zero add ofNat sinF sqrtF n) (sinF (sqrtF (ofNat n)))

/-- The source's fold over `0..n` computes the claim's sequential
accumulation. -/
theorem heavySim_foldl_eq_specScore {F : Type} (zero : F) (add : F → F → F)
    (ofNat : Nat → F) (sinF sqrtF : F → F) (n : Nat) :
    (List.range n).foldl (fun s i => add s (sinF (sqrtF (ofNat i)))) zero
      = heavySimSpecScore zero add ofNat sinF sqrtF n := by
  induction n with
  | zero => rfl
  | succ n ih =>
    rw [List.range_succ, List.foldl_append]
    simp [heavySimSpecScore, ih]

/-- C7: for every input string, `run_heavy_sim` performs exactly
1,000,000 accumulation steps of `sin(sqrt(i))` for `i` from 0 to
999,999 and returns the report string with the rendered score and the
input echoed verbatim — for every interpretation of the abstract `f64`
operations. -/
theorem run_heavy_sim_contract {F : Type} (zero : F) (add : F → F → F)
    (ofNat : Nat → F) (sinF sqrtF : F → F) (fmt4 : F → String) (data : String) :
    run_heavy_sim zero add ofNat sinF sqrtF fmt4 data
      = "Simulation Complete. Processed 1000000 iterations. Score: "
          ++ fmt4 (heavySimSpecScore zero add ofNat sinF sqrtF 1000000)
          ++ ". Data received: " ++ data := by
  have e : run_heavy_sim zero add ofNat sinF sqrtF fmt4 data
      = ("Simulation Complete. Processed " ++ toString (1000000 : Nat)
            ++ " iterations. Score: ")
          ++ fmt4 ((List.range 1000000).foldl
              (fun s i => add s (sinF (sqrtF (ofNat i)))) zero)
          ++ ". Data received: " ++ data := rfl
  have hlit : "Simulation Complete. Processed " ++ toString (1000000 : Nat)
        ++ " iterations. Score: "
      = "Simulation Complete. Processed 1000000 iterations. Score: " := rfl
  rw [e, heavySim_foldl_eq_specScore, hlit]
